import Mathlib

/-!
Shallow embedding of the synchronization core in src/birdbox/monitor.py:
the local-event coalescing stage and batch dispatch of `upload_worker`,
the event handlers of `DropboxUploadSync`, the `BirdBoxMonitor`
orchestrator state machine, and the offline-reconciliation walk
`BirdBoxMonitor._get_local_changes`.
-/

namespace Birdbox

/-! ## File events (watchdog events as used by monitor.py) -/

/-- The four watchdog event types dispatched by `upload_worker`. -/
inductive EventType
  | created
  | deleted
  | modified
  | moved
deriving DecidableEq

/-- A watchdog file-system event. `destPath` is `some _` only for moved
events. `eid` models Python object identity: the code compares events with
`is` / `is not`, which distinguishes equal-valued distinct objects. -/
structure FileEvent where
  eventType : EventType
  srcPath : String
  destPath : Option String
  isDirectory : Bool
  eid : Nat
deriving DecidableEq

/-- The key watchdog uses for `__eq__`/`__hash__` on events: Python
`set(events)` and set difference compare events by this key, not by
object identity. -/
def key (e : FileEvent) : EventType × String × Option String × Bool :=
  (e.eventType, e.srcPath, e.destPath, e.isDirectory)

/-! ## Batch coalescing (upload_worker, monitor.py lines 327-404) -/

/-- Python `str.startswith`: the second string is a character-wise prefix
of the first. -/
def startswith (s pre : String) : Bool :=
  pre.data.isPrefixOf s.data

/-- Predicate `is_moved_folder` in `upload_worker`. -/
def is_moved_folder (x : FileEvent) : Bool :=
  decide (x.eventType = EventType.moved) && x.isDirectory

/-- Predicate `is_moved_child` in `upload_worker`: a Moved event whose
`src_path` starts with the `src_path` of the parent event as a plain string prefix and
which is not the parent object itself. -/
def is_moved_child (x parent : FileEvent) : Bool :=
  decide (x.eventType = EventType.moved) &&
    (startswith x.srcPath parent.srcPath && decide (x.eid ≠ parent.eid))

/-- Predicate `is_deleted_folder` in `upload_worker`. -/
def is_deleted_folder (x : FileEvent) : Bool :=
  decide (x.eventType = EventType.deleted) && x.isDirectory

/-- Predicate `is_deleted_child` in `upload_worker`. -/
def is_deleted_child (x parent : FileEvent) : Bool :=
  decide (x.eventType = EventType.deleted) &&
    (startswith x.srcPath parent.srcPath && decide (x.eid ≠ parent.eid))

/-- Predicate `is_created` in `upload_worker`. -/
def is_created (x : FileEvent) : Bool :=
  decide (x.eventType = EventType.created)

/-- Predicate `is_modified_duplicate` in `upload_worker`: a Modified event with the
same `src_path` as the given Created event. -/
def is_modified_duplicate (x original : FileEvent) : Bool :=
  decide (x.eventType = EventType.modified) &&
    decide (x.srcPath = original.srcPath)

/-- The accumulated child lists: for each event of `events` satisfying
`isParent`, all events of `events` satisfying `isChild · parent`
(`child_move_events += children` in the source). -/
def childrenOf (isParent : FileEvent → Bool) (isChild : FileEvent → FileEvent → Bool)
    (events : List FileEvent) : List FileEvent :=
  ((events.filter isParent).map (fun p => events.filter (fun x => isChild x p))).flatten

/-- Python `set(events) - set(removed)`: an event survives iff no removed
event has the same watchdog key (Python sets compare events by key). -/
def removeAll (events removed : List FileEvent) : List FileEvent :=
  events.filter (fun x => ! removed.any (fun c => decide (key c = key x)))

/-- One subsumption stage of `upload_worker`: collect children of parent
events and subtract them from the batch. -/
def subsume (isParent : FileEvent → Bool) (isChild : FileEvent → FileEvent → Bool)
    (events : List FileEvent) : List FileEvent :=
  removeAll events (childrenOf isParent isChild events)

/-- monitor.py lines 376-384: combine Moved events of folders and their
children. -/
def subsumeMovedFolders (events : List FileEvent) : List FileEvent :=
  subsume is_moved_folder is_moved_child events

/-- monitor.py lines 386-394: combine Deleted events of folders and their
children. -/
def subsumeDeletedFolders (events : List FileEvent) : List FileEvent :=
  subsume is_deleted_folder is_deleted_child events

/-- monitor.py lines 396-404: combine Created and Modified events of the
same file. -/
def fuseCreatedModified (events : List FileEvent) : List FileEvent :=
  subsume is_created is_modified_duplicate events

/-- The full coalescing pipeline of `upload_worker` on one batch. -/
def coalesce (events : List FileEvent) : List FileEvent :=
  fuseCreatedModified (subsumeDeletedFolders (subsumeMovedFolders events))

/-! ### Membership characterization of the coalescing stages -/

theorem mem_removeAll {x : FileEvent} {l r : List FileEvent} :
    x ∈ removeAll l r ↔ x ∈ l ∧ ∀ c ∈ r, key c ≠ key x := by
  simp [removeAll, List.mem_filter, List.any_eq_true]

theorem mem_childrenOf {c : FileEvent} {P : FileEvent → Bool}
    {C : FileEvent → FileEvent → Bool} {l : List FileEvent} :
    c ∈ childrenOf P C l ↔ ∃ p ∈ l, P p = true ∧ c ∈ l ∧ C c p = true := by
  simp only [childrenOf, List.mem_flatten, List.mem_map]
  constructor
  · rintro ⟨s, ⟨p, hp, rfl⟩, hc⟩
    rw [List.mem_filter] at hp hc
    exact ⟨p, hp.1, hp.2, hc.1, hc.2⟩
  · rintro ⟨p, hp, hPp, hcl, hC⟩
    exact ⟨l.filter (fun x => C x p), ⟨p, List.mem_filter.mpr ⟨hp, hPp⟩, rfl⟩,
      List.mem_filter.mpr ⟨hcl, hC⟩⟩

theorem mem_subsume {x : FileEvent} {P : FileEvent → Bool}
    {C : FileEvent → FileEvent → Bool} {l : List FileEvent} :
    x ∈ subsume P C l ↔
      x ∈ l ∧ ∀ p ∈ l, P p = true → ∀ c ∈ l, C c p = true → key c ≠ key x := by
  rw [subsume, mem_removeAll]
  constructor
  · rintro ⟨hx, h⟩
    refine ⟨hx, fun p hp hP c hc hC => h c (mem_childrenOf.mpr ⟨p, hp, hP, hc, hC⟩)⟩
  · rintro ⟨hx, h⟩
    refine ⟨hx, fun c hc => ?_⟩
    obtain ⟨p, hp, hP, hcl, hC⟩ := mem_childrenOf.mp hc
    exact h p hp hP c hcl hC

theorem key_eventType {c x : FileEvent} (h : key c = key x) :
    c.eventType = x.eventType := congrArg Prod.fst h

theorem key_srcPath {c x : FileEvent} (h : key c = key x) :
    c.srcPath = x.srcPath := congrArg (fun k => k.2.1) h

/-- Events are removed by a subsumption stage only via children of the
matching type; an event of a different type always survives unchanged. -/
theorem mem_subsume_of_child_type {x : FileEvent} {P : FileEvent → Bool}
    {C : FileEvent → FileEvent → Bool} {l : List FileEvent} {t : EventType}
    (hC : ∀ c p, C c p = true → c.eventType = t) (ht : x.eventType ≠ t) :
    x ∈ subsume P C l ↔ x ∈ l := by
  rw [mem_subsume]
  constructor
  · exact fun h => h.1
  · intro hx
    refine ⟨hx, fun p _ _ c _ hCc hk => ?_⟩
    exact ht (key_eventType hk ▸ hC c p hCc)

theorem is_moved_child_type {c p : FileEvent} (h : is_moved_child c p = true) :
    c.eventType = EventType.moved := by
  simp [is_moved_child] at h
  exact h.1

theorem is_deleted_child_type {c p : FileEvent} (h : is_deleted_child c p = true) :
    c.eventType = EventType.deleted := by
  simp [is_deleted_child] at h
  exact h.1

theorem is_modified_duplicate_type {c p : FileEvent}
    (h : is_modified_duplicate c p = true) :
    c.eventType = EventType.modified := by
  simp [is_modified_duplicate] at h
  exact h.1

theorem is_deleted_folder_type {p : FileEvent} (h : is_deleted_folder p = true) :
    p.eventType = EventType.deleted := by
  simp [is_deleted_folder] at h
  exact h.1

theorem mem_of_mem_subsume {x : FileEvent} {P : FileEvent → Bool}
    {C : FileEvent → FileEvent → Bool} {l : List FileEvent}
    (h : x ∈ subsume P C l) : x ∈ l :=
  (mem_subsume.mp h).1

/-- An event that is not Moved passes the folder-move subsumption stage
untouched. -/
theorem mem_subsumeMovedFolders_iff {x : FileEvent} {l : List FileEvent}
    (h : x.eventType ≠ EventType.moved) :
    x ∈ subsumeMovedFolders l ↔ x ∈ l :=
  mem_subsume_of_child_type (fun _ _ hc => is_moved_child_type hc) h

/-- An event that is not Deleted passes the folder-delete subsumption
stage untouched. -/
theorem mem_subsumeDeletedFolders_iff {x : FileEvent} {l : List FileEvent}
    (h : x.eventType ≠ EventType.deleted) :
    x ∈ subsumeDeletedFolders l ↔ x ∈ l :=
  mem_subsume_of_child_type (fun _ _ hc => is_deleted_child_type hc) h

/-- An event that is not Modified passes the create/modify fusion stage
untouched. -/
theorem mem_fuseCreatedModified_iff {x : FileEvent} {l : List FileEvent}
    (h : x.eventType ≠ EventType.modified) :
    x ∈ fuseCreatedModified l ↔ x ∈ l :=
  mem_subsume_of_child_type (fun _ _ hc => is_modified_duplicate_type hc) h

theorem eq_of_key_eq_of_nodup {B : List FileEvent} (hKeys : (B.map key).Nodup)
    {c x : FileEvent} (hc : c ∈ B) (hx : x ∈ B) (h : key c = key x) : c = x :=
  List.inj_on_of_nodup_map hKeys hc hx h

theorem subsume_sublist (P : FileEvent → Bool) (C : FileEvent → FileEvent → Bool)
    (l : List FileEvent) : List.Sublist (subsume P C l) l :=
  List.filter_sublist l

theorem keys_nodup_subsume {P : FileEvent → Bool} {C : FileEvent → FileEvent → Bool}
    {l : List FileEvent} (h : (l.map key).Nodup) :
    ((subsume P C l).map key).Nodup :=
  h.sublist ((subsume_sublist P C l).map key)

/-- Characterization of survival of a Moved event through the folder-move
subsumption stage, when the batch has no two events with the same
watchdog key. -/
theorem mem_subsumeMovedFolders_iff_moved {B : List FileEvent} {x : FileEvent}
    (hKeys : (B.map key).Nodup) (hx : x ∈ B) :
    x ∈ subsumeMovedFolders B ↔
      ∀ p ∈ B, is_moved_folder p = true → is_moved_child x p = false := by
  rw [subsumeMovedFolders, mem_subsume]
  constructor
  · rintro ⟨-, h⟩ p hp hP
    by_contra hcontra
    rw [Bool.not_eq_false] at hcontra
    exact h p hp hP x hx hcontra rfl
  · intro h
    refine ⟨hx, fun p hp hP c hc hC hk => ?_⟩
    have hcx : c = x := eq_of_key_eq_of_nodup hKeys hc hx hk
    subst hcx
    simp [h p hp hP] at hC

/-- Characterization of survival of a Deleted event through the
folder-delete subsumption stage, when the batch has no two events with
the same watchdog key. -/
theorem mem_subsumeDeletedFolders_iff_deleted {B : List FileEvent} {x : FileEvent}
    (hKeys : (B.map key).Nodup) (hx : x ∈ B) :
    x ∈ subsumeDeletedFolders B ↔
      ∀ p ∈ B, is_deleted_folder p = true → is_deleted_child x p = false := by
  rw [subsumeDeletedFolders, mem_subsume]
  constructor
  · rintro ⟨-, h⟩ p hp hP
    by_contra hcontra
    rw [Bool.not_eq_false] at hcontra
    exact h p hp hP x hx hcontra rfl
  · intro h
    refine ⟨hx, fun p hp hP c hc hC hk => ?_⟩
    have hcx : c = x := eq_of_key_eq_of_nodup hKeys hc hx hk
    subst hcx
    simp [h p hp hP] at hC

/-! ### Concrete batches for the subsumption counterexample -/

/-- A Moved event with the given source, destination, directory flag and
object identity. -/
def mkMoved (src dest : String) (dir : Bool) (n : Nat) : FileEvent :=
  ⟨EventType.moved, src, some dest, dir, n⟩

/-- A folder move of `/a/b` next to a file move of the sibling `/a/bc`,
whose source path extends `/a/b` as a string but not as a path. -/
def batchSibling : List FileEvent :=
  [mkMoved "/a/b" "/c/b" true 0, mkMoved "/a/bc" "/c/bc" false 1]

/-- A folder move of `/a` with a nested folder move of `/a/b` and a file
move of `/a/b/c` in the same batch. -/
def batchNested : List FileEvent :=
  [mkMoved "/a" "/z" true 0, mkMoved "/a/b" "/z/b" true 1,
   mkMoved "/a/b/c" "/z/b/c" false 2]

/-- C4 counterexample. Two concrete batches refute the claim as stated.
In `batchSibling`, the file-move of `/a/bc` is removed by the folder-move
of `/a/b` although `/a/bc` does not begin with `/a/b/`: the subsumption
removes by plain string prefix, not path prefix, so it does not remove
precisely the path-prefix extensions. In `batchNested`, `e1`, the
folder-move of `/a/b`, is itself removed by the folder-move of `/a`, so
the coalesced batch does not contain `e1` even though `e1` is a
folder-Moved event and `e2 = /a/b/c` begins with `e1.src_path ++ "/"`. -/
theorem c4_subsumption_counterexample :
    coalesce batchSibling = [mkMoved "/a/b" "/c/b" true 0] ∧
    startswith "/a/bc" ("/a/b" ++ "/") = false ∧
    coalesce batchNested = [mkMoved "/a" "/z" true 0] ∧
    is_moved_folder (mkMoved "/a/b" "/z/b" true 1) = true ∧
    startswith "/a/b/c" ("/a/b" ++ "/") = true := by
  decide

/-- C4 (amended): in the coalesced batch, a Moved (resp. Deleted) event x
of a key-duplicate-free batch survives iff no folder-Moved
(resp. folder-Deleted) event of the batch subsumes it, where subsumption
tests `src_path.startswith(parent.src_path)` — a plain string prefix, with
no path-separator requirement — together with object-identity distinctness;
in particular nested folder events are themselves subsumed. -/
theorem c4_subsumption_amended (B : List FileEvent) (x : FileEvent)
    (hKeys : (B.map key).Nodup) (hx : x ∈ B) :
    (x.eventType = EventType.moved →
      (x ∈ coalesce B ↔
        ∀ p ∈ B, is_moved_folder p = true → is_moved_child x p = false)) ∧
    (x.eventType = EventType.deleted →
      (x ∈ coalesce B ↔
        ∀ p ∈ B, is_deleted_folder p = true → is_deleted_child x p = false)) := by
  constructor
  · intro hm
    rw [coalesce,
      mem_fuseCreatedModified_iff (by rw [hm]; exact fun h => EventType.noConfusion h),
      mem_subsumeDeletedFolders_iff (by rw [hm]; exact fun h => EventType.noConfusion h),
      mem_subsumeMovedFolders_iff_moved hKeys hx]
  · intro hd
    rw [coalesce,
      mem_fuseCreatedModified_iff (by rw [hd]; exact fun h => EventType.noConfusion h),
      mem_subsumeDeletedFolders_iff_deleted
        (show ((subsumeMovedFolders B).map key).Nodup from keys_nodup_subsume hKeys)
        ((mem_subsumeMovedFolders_iff
          (by rw [hd]; exact fun h => EventType.noConfusion h)).mpr hx)]
    constructor
    · intro h p hp hP
      exact h p ((mem_subsumeMovedFolders_iff
        (fun hne => EventType.noConfusion ((is_deleted_folder_type hP) ▸ hne))).mpr hp) hP
    · intro h p hp hP
      exact h p (mem_of_mem_subsume hp) hP

/-- C4 witness: the amended characterization applied to a concrete batch
of one folder move and one file move inside it. -/
theorem c4_subsumption_amended_witness :
    (((batchNested.map key).Nodup ∧ mkMoved "/a/b" "/z/b" true 1 ∈ batchNested) ∧
      ((mkMoved "/a/b" "/z/b" true 1).eventType = EventType.moved →
        (mkMoved "/a/b" "/z/b" true 1 ∈ coalesce batchNested ↔
          ∀ p ∈ batchNested, is_moved_folder p = true →
            is_moved_child (mkMoved "/a/b" "/z/b" true 1) p = false))) :=
  ⟨⟨by decide, by decide⟩,
    (c4_subsumption_amended batchNested (mkMoved "/a/b" "/z/b" true 1)
      (by decide) (by decide)).1⟩

/-- C5: if a batch contains a Created event with path p, the coalesced
batch contains no Modified event with path p; and every Modified event
whose path differs from the path of every Created event survives the
create/modify fusion step. -/
theorem c5_create_modify_fusion (B : List FileEvent) (c : FileEvent)
    (hc : c ∈ B) (hty : c.eventType = EventType.created) :
    (∀ x ∈ coalesce B, x.eventType = EventType.modified → x.srcPath ≠ c.srcPath) ∧
    (∀ m ∈ subsumeDeletedFolders (subsumeMovedFolders B),
      m.eventType = EventType.modified →
      (∀ c2 ∈ B, c2.eventType = EventType.created → c2.srcPath ≠ m.srcPath) →
      m ∈ coalesce B) := by
  have hcB2 : c ∈ subsumeDeletedFolders (subsumeMovedFolders B) := by
    rw [mem_subsumeDeletedFolders_iff (by rw [hty]; exact fun h => EventType.noConfusion h),
      mem_subsumeMovedFolders_iff (by rw [hty]; exact fun h => EventType.noConfusion h)]
    exact hc
  constructor
  · intro x hx hmod heq
    rw [coalesce, fuseCreatedModified, mem_subsume] at hx
    refine hx.2 c hcB2 (by simp [is_created, hty]) x hx.1 ?_ rfl
    simp [is_modified_duplicate, hmod, heq]
  · intro m hm hmod hdiff
    rw [coalesce, fuseCreatedModified, mem_subsume]
    refine ⟨hm, fun p hp hP d hd hD hk => ?_⟩
    have hpB : p ∈ B := mem_of_mem_subsume (mem_of_mem_subsume hp)
    have hpty : p.eventType = EventType.created := by
      simpa [is_created] using hP
    have hdup := hD
    simp only [is_modified_duplicate, Bool.and_eq_true, decide_eq_true_eq] at hdup
    have hsrc : d.srcPath = m.srcPath := key_srcPath hk
    exact hdiff p hpB hpty (by rw [← hdup.2, hsrc])

/-- C5 witness: a concrete batch with a Created and a Modified event of
the same path, and an unrelated Modified event that survives. -/
theorem c5_create_modify_fusion_witness :
    ((⟨EventType.created, "/f", none, false, 0⟩ : FileEvent) ∈
        ([⟨EventType.created, "/f", none, false, 0⟩,
          ⟨EventType.modified, "/f", none, false, 1⟩,
          ⟨EventType.modified, "/g", none, false, 2⟩] : List FileEvent) ∧
      (⟨EventType.created, "/f", none, false, 0⟩ : FileEvent).eventType =
        EventType.created) ∧
    (∀ x ∈ coalesce [⟨EventType.created, "/f", none, false, 0⟩,
          ⟨EventType.modified, "/f", none, false, 1⟩,
          ⟨EventType.modified, "/g", none, false, 2⟩],
        x.eventType = EventType.modified →
        x.srcPath ≠ (⟨EventType.created, "/f", none, false, 0⟩ : FileEvent).srcPath) :=
  ⟨⟨by decide, by decide⟩,
    (c5_create_modify_fusion _ _ (by decide) (by decide)).1⟩

/-! ## DropboxUploadSync handlers (monitor.py lines 84-241)

Stateful Python is modelled by explicit state passing. `SyncState` holds
the pieces of mutable state the handlers touch: the `("internal",
"lastsync")` config entry, the revision index kept by the client, the
`running` event of the worker, the number of `disconnected` signals
emitted, and a log of remote API calls issued. Remote calls can raise;
a handler returns its final state together with `some err` when a call
raised (effects performed before the raise are kept, as in Python). -/

/-- The three classes of Python exceptions distinguished by monitor.py:
`CONNECTION_ERRORS`, `(KeyboardInterrupt, SystemExit)`, everything else. -/
inductive PyErr
  | connErr
  | interrupt
  | otherErr
deriving DecidableEq

/-- Upload modes, `dropbox.files.WriteMode` as constructed by the handlers: `add`, or
`update` with a revision that the code may pass as `None`. -/
inductive WriteMode
  | add
  | update (rev : Option String)
deriving DecidableEq

/-- Remote API calls the handlers may issue, with their arguments. -/
inductive RemoteCall
  | upload (localPath dbxPath : String) (autorename : Bool) (mode : WriteMode)
  | remove (dbxPath : String)
  | move (src dest : String)
  | makeDir (dbxPath : String)
  | getMetadata (dbxPath : String)
  | listFolder (dbxPath : String)
deriving DecidableEq

/-- Metadata returned by `client.move` / listed by `list_folder`: either
file metadata with a path and a revision, or folder metadata. -/
inductive Meta
  | file (pathDisplay rev : String)
  | folder (pathDisplay : String)
deriving DecidableEq

/-- The mutable state visible to the handlers and the upload worker. -/
structure SyncState where
  lastsync : Nat
  revIndex : List (String × String)
  running : Bool
  disconnects : Nat
  calls : List RemoteCall
deriving DecidableEq

/-- The environment: responses of the remote client and of the local file
system, fixed per call arguments. An `Except.error` response models the
call raising that exception. -/
structure ClientModel where
  toDbxPath : String → String
  isExcluded : String → Bool
  isfile : String → Bool
  uploadRes : String → String → WriteMode → Except PyErr (String × String)
  removeRes : String → Except PyErr (Option String)
  moveRes : String → String → Except PyErr Meta
  getMetadataRes : String → Except PyErr Bool
  makeDirRes : String → Except PyErr Unit
  listFolderRes : String → Except PyErr (List Meta)

/-- Python `str.lower`, characterwise (paths here are ASCII). -/
def lower (s : String) : String :=
  String.mk (s.data.map Char.toLower)

/-- Modelled from the spec: `RemoteClient.get_local_rev` is not under
src/; per the spec the RevisionIndex maps case-normalized remote paths to
revision tokens and absence means not tracked. -/
def getLocalRev (ri : List (String × String)) (p : String) : Option String :=
  (ri.find? (fun kv => kv.1 == lower p)).map (fun kv => kv.2)

/-- Modelled from the spec: `RemoteClient.set_local_rev` is not under
src/; per the spec it stores `rev` or the `"folder"` sentinel under the
case-normalized path, and storing `None` removes the entry. -/
def setLocalRev (ri : List (String × String)) (p : String) (tok : Option String) :
    List (String × String) :=
  match tok with
  | none => ri.filter (fun kv => kv.1 != lower p)
  | some t => (lower p, t) :: ri.filter (fun kv => kv.1 != lower p)

/-- POSIX `os.path.basename`: the part after the last slash. -/
def basename (p : String) : String :=
  ((p.splitOn "/").getLastD p)

/-- Python `str.count` applied to the dot character. -/
def countDots (s : String) : Nat :=
  s.data.countP (fun ch => ch == '.')

/-- Handler `DropboxUploadSync.on_moved` (monitor.py lines 99-141). -/
def on_moved (c : ClientModel) (now : Nat) (ev : FileEvent) (s : SyncState) :
    SyncState × Option PyErr :=
  let path := ev.srcPath
  let path2 := ev.destPath.getD ""
  let dbxPath := c.toDbxPath path
  let dbxPath2 := c.toDbxPath path2
  if c.isExcluded dbxPath2 then (s, none)
  else if countDots (basename path2) > 1 then (s, none)
  else
    let s1 := { s with calls := s.calls ++ [RemoteCall.move dbxPath dbxPath2] }
    match c.moveRes dbxPath dbxPath2 with
    | Except.error e => (s1, some e)
    | Except.ok md =>
      let s2 := { s1 with revIndex := setLocalRev s1.revIndex dbxPath none }
      match md with
      | Meta.file _ rev =>
        ({ s2 with revIndex := setLocalRev s2.revIndex dbxPath2 (some rev),
                   lastsync := now }, none)
      | Meta.folder _ =>
        let s3 := { s2 with
          revIndex := setLocalRev s2.revIndex dbxPath2 (some "folder"),
          calls := s2.calls ++ [RemoteCall.listFolder dbxPath2] }
        match c.listFolderRes dbxPath2 with
        | Except.error e => (s3, some e)
        | Except.ok mds =>
          let ri := mds.foldl (fun ri m =>
            match m with
            | Meta.file pd rev => setLocalRev ri pd (some rev)
            | Meta.folder pd => setLocalRev ri pd (some "folder")) s3.revIndex
          ({ s3 with revIndex := ri, lastsync := now }, none)

/-- Handler `DropboxUploadSync.on_created` (monitor.py lines 143-188). The
size-stabilization polling loop only sleeps and reads sizes; it has no
effect on the modelled state and is omitted. -/
def on_created (c : ClientModel) (now : Nat) (ev : FileEvent) (s : SyncState) :
    SyncState × Option PyErr :=
  let path := ev.srcPath
  let dbxPath := c.toDbxPath path
  if c.isExcluded dbxPath then (s, none)
  else if !ev.isDirectory then
    if c.isfile path then
      let rev := getLocalRev s.revIndex dbxPath
      let mode := match rev with
        | none => WriteMode.add
        | some r => WriteMode.update (some r)
      let s1 := { s with calls := s.calls ++ [RemoteCall.upload path dbxPath true mode] }
      match c.uploadRes path dbxPath mode with
      | Except.error e => (s1, some e)
      | Except.ok res =>
        ({ s1 with revIndex := setLocalRev s1.revIndex res.1 (some res.2),
                   lastsync := now }, none)
    else ({ s with lastsync := now }, none)
  else
    let s1 := { s with calls := s.calls ++ [RemoteCall.getMetadata dbxPath] }
    match c.getMetadataRes dbxPath with
    | Except.error e => (s1, some e)
    | Except.ok found =>
      if found then
        ({ s1 with revIndex := setLocalRev s1.revIndex dbxPath (some "folder"),
                   lastsync := now }, none)
      else
        let s2 := { s1 with calls := s1.calls ++ [RemoteCall.makeDir dbxPath] }
        match c.makeDirRes dbxPath with
        | Except.error e => (s2, some e)
        | Except.ok _ =>
          ({ s2 with revIndex := setLocalRev s2.revIndex dbxPath (some "folder"),
                     lastsync := now }, none)

/-- Handler `DropboxUploadSync.on_deleted` (monitor.py lines 190-210). -/
def on_deleted (c : ClientModel) (now : Nat) (ev : FileEvent) (s : SyncState) :
    SyncState × Option PyErr :=
  let path := ev.srcPath
  let dbxPath := c.toDbxPath path
  if c.isExcluded dbxPath then (s, none)
  else
    match getLocalRev s.revIndex dbxPath with
    | some _ =>
      let s1 := { s with calls := s.calls ++ [RemoteCall.remove dbxPath] }
      match c.removeRes dbxPath with
      | Except.error e => (s1, some e)
      | Except.ok mdOpt =>
        match mdOpt with
        | some pd =>
          ({ s1 with revIndex := setLocalRev s1.revIndex pd none,
                     lastsync := now }, none)
        | none => ({ s1 with lastsync := now }, none)
    | none => ({ s with lastsync := now }, none)

/-- Handler `DropboxUploadSync.on_modified` (monitor.py lines 212-241). Note that
after a successful upload the code only logs the new revision; it does
not write it into the revision index. -/
def on_modified (c : ClientModel) (now : Nat) (ev : FileEvent) (s : SyncState) :
    SyncState × Option PyErr :=
  let path := ev.srcPath
  let dbxPath := c.toDbxPath path
  if c.isExcluded dbxPath then (s, none)
  else if !ev.isDirectory then
    if c.isfile path then
      let rev := getLocalRev s.revIndex dbxPath
      let mode := WriteMode.update rev
      let s1 := { s with calls := s.calls ++ [RemoteCall.upload path dbxPath true mode] }
      match c.uploadRes path dbxPath mode with
      | Except.error e => (s1, some e)
      | Except.ok _ => ({ s1 with lastsync := now }, none)
    else ({ s with lastsync := now }, none)
  else ({ s with lastsync := now }, none)

/-- Function `dispatch_event` inside `upload_worker` (monitor.py lines 406-414). -/
def dispatchEvent (c : ClientModel) (now : Nat) (ev : FileEvent) (s : SyncState) :
    SyncState × Option PyErr :=
  match ev.eventType with
  | EventType.created => on_created c now ev s
  | EventType.moved => on_moved c now ev s
  | EventType.deleted => on_deleted c now ev s
  | EventType.modified => on_modified c now ev s

/-- All dispatches of one batch, collecting the exceptions raised inside
the pool workers. `ThreadPoolExecutor.map` submits every event; an
exception raised by `dispatch_event` is stored in its future, and since
the iterator returned by `map` is never consumed, it is re-raised
nowhere. Leaving the `with` block only waits for completion. -/
def runDispatches (c : ClientModel) (now : Nat) (events : List FileEvent)
    (s : SyncState) : SyncState × List PyErr :=
  events.foldl
    (fun acc ev =>
      let r := dispatchEvent c now ev acc.1
      (r.1, acc.2 ++ r.2.toList))
    (s, [])

/-- One batch of `upload_worker` (monitor.py lines 416-433): dispatch all
events through the executor, then `CONF.set("internal", "lastsync", ...)`.
Because dispatch exceptions stay inside unconsumed futures, the body of
the `try` never raises a connection error, the `except CONNECTION_ERRORS`
clause is unreachable from dispatch failures, and the final `lastsync`
write always executes. The returned list holds the exceptions that were
captured (and lost) in the futures. -/
def uploadBatch (c : ClientModel) (now : Nat) (events : List FileEvent)
    (s : SyncState) : SyncState × List PyErr :=
  let r := runDispatches c now events s
  ({ r.1 with lastsync := now }, r.2)

/-! ### Concrete environments for the batch-failure runs -/

/-- Initial worker state: nothing synced yet, the worker running, no
signals emitted, no remote calls issued. -/
def s0 : SyncState :=
  { lastsync := 0, revIndex := [], running := true, disconnects := 0, calls := [] }

/-- A client whose upload and move endpoints raise a connection error;
every other response is benign. Paths map to themselves and nothing is
excluded. -/
def failUploadClient : ClientModel :=
  { toDbxPath := fun p => p,
    isExcluded := fun _ => false,
    isfile := fun _ => true,
    uploadRes := fun _ _ _ => Except.error PyErr.connErr,
    removeRes := fun _ => Except.ok none,
    moveRes := fun _ _ => Except.error PyErr.connErr,
    getMetadataRes := fun _ => Except.ok true,
    makeDirRes := fun _ => Except.ok (),
    listFolderRes := fun _ => Except.ok [] }

/-- Like `failUploadClient` but the upload raises an unexpected,
non-connection exception. -/
def failUploadOtherClient : ClientModel :=
  { failUploadClient with uploadRes := fun _ _ _ => Except.error PyErr.otherErr }

/-- A one-event batch: a Modified event for the file `/a.txt`. -/
def batchOneModified : List FileEvent :=
  [⟨EventType.modified, "/a.txt", none, false, 0⟩]

/-- C1 counterexample: in a batch whose only dispatch raises a
connection-class error, lastsync is nevertheless advanced from 0 to the
batch-completion time 5 — the exception stays inside its future, so the
worker reaches the final `CONF.set` write. The failing handler itself
never reached its own lastsync write, so the change comes from the
batch-completion write alone. -/
theorem c1_failed_batch_lastsync_counterexample :
    s0.lastsync = 0 ∧
    (uploadBatch failUploadClient 5 batchOneModified s0).2 = [PyErr.connErr] ∧
    (uploadBatch failUploadClient 5 batchOneModified s0).1.lastsync = 5 := by
  exact ⟨rfl, rfl, rfl⟩

/-- C1 (amended): every upload batch — also one in which a dispatch
raises a connection-class error — ends with lastsync set to the
batch-completion time: dispatch exceptions are captured in unconsumed
futures and never reach the except clause, and each handler that
completed has already advanced lastsync itself during the batch. -/
theorem c1_lastsync_batch_amended (c : ClientModel) (now : Nat)
    (events : List FileEvent) (s : SyncState) :
    (uploadBatch c now events s).1.lastsync = now := rfl

/-- C2 evaluation at the failing input: the only dispatch of the batch
raises a connection error, which stays inside its future. The worker
emits no disconnected signal, leaves running set, and finishes the batch
normally; an unexpected non-connection error is swallowed the same way. -/
theorem c2_connection_error_swallowed :
    (uploadBatch failUploadClient 5 batchOneModified s0).2 = [PyErr.connErr] ∧
    (uploadBatch failUploadClient 5 batchOneModified s0).1.disconnects = 0 ∧
    (uploadBatch failUploadClient 5 batchOneModified s0).1.running = true ∧
    (uploadBatch failUploadOtherClient 5 batchOneModified s0).2 = [PyErr.otherErr] ∧
    (uploadBatch failUploadOtherClient 5 batchOneModified s0).1.disconnects = 0 := by
  exact ⟨rfl, rfl, rfl, rfl, rfl⟩

/-- A client whose upload succeeds and returns the new revision r2. -/
def uploadR2Client : ClientModel :=
  { failUploadClient with uploadRes := fun _ _ _ => Except.ok ("/a.txt", "r2") }

/-- State in which `/a.txt` is tracked with revision r1. -/
def trackedR1State : SyncState :=
  { lastsync := 0, revIndex := [("/a.txt", "r1")], running := true,
    disconnects := 0, calls := [] }

/-- C3 evaluation at the failing input: the Modified handler uploads with
mode Update of the current revision r1 and autorename, the upload returns
the new revision r2, yet the revision index still maps the path to r1 —
`on_modified` never writes the returned revision. -/
theorem c3_modified_rev_not_recorded :
    (on_modified uploadR2Client 5 ⟨EventType.modified, "/a.txt", none, false, 0⟩
        trackedR1State).1.calls =
      [RemoteCall.upload "/a.txt" "/a.txt" true (WriteMode.update (some "r1"))] ∧
    (on_modified uploadR2Client 5 ⟨EventType.modified, "/a.txt", none, false, 0⟩
        trackedR1State).1.revIndex = [("/a.txt", "r1")] ∧
    (on_modified uploadR2Client 5 ⟨EventType.modified, "/a.txt", none, false, 0⟩
        trackedR1State).2 = none ∧
    (on_modified uploadR2Client 5 ⟨EventType.modified, "/a.txt", none, false, 0⟩
        trackedR1State).1.lastsync = 5 := by
  exact ⟨rfl, rfl, rfl, rfl⟩

/-- C10: a Deleted event whose remote path is not excluded and whose
revision lookup returns None issues no remote call and leaves the
revision index unchanged, yet still advances lastsync to the current
time. -/
theorem c10_untracked_delete_advances_lastsync
    (c : ClientModel) (now : Nat) (ev : FileEvent) (s : SyncState)
    (hexcl : c.isExcluded (c.toDbxPath ev.srcPath) = false)
    (hrev : getLocalRev s.revIndex (c.toDbxPath ev.srcPath) = none) :
    on_deleted c now ev s = ({ s with lastsync := now }, none) := by
  simp [on_deleted, hexcl, hrev]

/-- C10 witness at a concrete untracked path. -/
theorem c10_untracked_delete_advances_lastsync_witness :
    (failUploadClient.isExcluded (failUploadClient.toDbxPath "/b.txt") = false ∧
      getLocalRev s0.revIndex (failUploadClient.toDbxPath "/b.txt") = none) ∧
    on_deleted failUploadClient 7 ⟨EventType.deleted, "/b.txt", none, false, 3⟩ s0 =
      ({ s0 with lastsync := 7 }, none) :=
  ⟨⟨rfl, rfl⟩,
    c10_untracked_delete_advances_lastsync failUploadClient 7
      ⟨EventType.deleted, "/b.txt", none, false, 3⟩ s0 rfl rfl⟩

/-! ## BirdBoxMonitor orchestrator (monitor.py lines 436-533) -/

/-- The orchestrator state: the `running` event of the monitor, the
`running` event of the file handler (the active gate of the watcher), the sticky
`paused_by_user` flag, whether the observer and the worker threads have
been created and started, and how many times offline reconciliation
(`upload_local_changes_after_inactive`) has run. -/
structure MonitorState where
  running : Bool
  fhRunning : Bool
  pausedByUser : Bool
  observerSpawned : Bool
  workersSpawned : Bool
  reconcileRuns : Nat
deriving DecidableEq

/-- A freshly constructed monitor: the class attributes leave both events
unset and set `paused_by_user = True` (monitor.py line 463); no observer
or worker threads exist and reconciliation has not run. -/
def initialMonitorState : MonitorState :=
  { running := false, fhRunning := false, pausedByUser := true,
    observerSpawned := false, workersSpawned := false, reconcileRuns := 0 }

/-- Method `BirdBoxMonitor.start` (lines 479-513): returns immediately when
already running or paused by the user; otherwise creates and starts the
observer and worker threads, runs offline reconciliation, and sets both
running events. -/
def start (s : MonitorState) : MonitorState :=
  if s.running || s.pausedByUser then s
  else { s with observerSpawned := true, workersSpawned := true,
                reconcileRuns := s.reconcileRuns + 1,
                running := true, fhRunning := true }

/-- Method `BirdBoxMonitor.resume` (lines 515-525), the slot connected to the
connected signal: returns immediately when already running or paused by
the user; otherwise runs offline reconciliation and sets both running
events. -/
def resume (s : MonitorState) : MonitorState :=
  if s.running || s.pausedByUser then s
  else { s with reconcileRuns := s.reconcileRuns + 1,
                running := true, fhRunning := true }

/-- Method `BirdBoxMonitor.pause` (lines 527-531). -/
def pause (s : MonitorState) : MonitorState :=
  { s with running := false, fhRunning := false }

/-- C8: while `paused_by_user` is true, `resume` — in particular when
invoked by a connected signal — changes nothing: both running events keep
their values and offline reconciliation does not run. -/
theorem c8_resume_noop_when_paused_by_user (s : MonitorState)
    (h : s.pausedByUser = true) : resume s = s := by
  simp [resume, h]

/-- C8 witness: the paused fresh monitor, on which resume leaves the
flags cleared and the reconciliation count at zero. -/
theorem c8_resume_noop_when_paused_by_user_witness :
    initialMonitorState.pausedByUser = true ∧
    resume initialMonitorState = initialMonitorState ∧
    (resume initialMonitorState).running = false ∧
    (resume initialMonitorState).reconcileRuns = 0 :=
  ⟨rfl, c8_resume_noop_when_paused_by_user initialMonitorState rfl, rfl, rfl⟩

/-- C9: a fresh monitor has `paused_by_user = True`, so its first
`start()` returns immediately, spawning nothing, running no
reconciliation and setting no flag; once `paused_by_user` is cleared
externally, `start()` takes full effect. -/
theorem c9_start_noop_on_fresh_monitor :
    initialMonitorState.pausedByUser = true ∧
    start initialMonitorState = initialMonitorState ∧
    (start { initialMonitorState with pausedByUser := false }).running = true ∧
    (start { initialMonitorState with pausedByUser := false }).fhRunning = true ∧
    (start { initialMonitorState with pausedByUser := false }).observerSpawned = true ∧
    (start { initialMonitorState with pausedByUser := false }).workersSpawned = true ∧
    (start { initialMonitorState with pausedByUser := false }).reconcileRuns = 1 := by
  exact ⟨rfl, rfl, rfl, rfl, rfl, rfl, rfl⟩

/-! ## Offline reconciliation (BirdBoxMonitor._get_local_changes,
monitor.py lines 557-605) -/

/-- Per-path stat record supplied by the directory snapshot. -/
structure PathStat where
  ctime : Nat
  mtime : Nat
deriving DecidableEq

/-- A freshly synthesized watchdog event (object identity plays no role
for these, so eid is 0). -/
def mkEvent (t : EventType) (p : String) (d : Bool) : FileEvent :=
  ⟨t, p, none, d, 0⟩

/-- First loop of `_get_local_changes` (lines 575-594): for every
snapshot path other than the root with `max(ctime, mtime)` newer than
lastsync, a Modified event when the lowercased remote path is a key of
the revision index, a Created event otherwise; the directory flag comes
from the live `os.path.isdir` check. -/
def reconModifiedOrAdded (toDbx : String → String) (isdir : String → Bool)
    (root : String) (snapshot0 : List (String × PathStat))
    (revDict : List (String × String)) (lastSync : Nat) : List FileEvent :=
  (snapshot0.filter (fun x => x.1 != root)).filterMap (fun x =>
    if max x.2.ctime x.2.mtime > lastSync then
      if revDict.any (fun kv => kv.1 == lower (toDbx x.1)) then
        some (mkEvent EventType.modified x.1 (isdir x.1))
      else
        some (mkEvent EventType.created x.1 (isdir x.1))
    else none)

/-- Second loop of `_get_local_changes` (lines 596-603): for every
revision index key whose lowercased local path is not among the
lowercased snapshot paths, a Deleted event, a directory one iff the
stored token is the folder sentinel. -/
def reconDeleted (toLocal : String → String) (root : String)
    (snapshot0 : List (String × PathStat))
    (revDict : List (String × String)) : List FileEvent :=
  revDict.filterMap (fun kv =>
    if !((snapshot0.filter (fun x => x.1 != root)).map (fun x => lower x.1)).contains
        (lower (toLocal kv.1)) then
      some (mkEvent EventType.deleted (toLocal kv.1) (kv.2 == "folder"))
    else none)

/-- Method `BirdBoxMonitor._get_local_changes`: the snapshot is the list of
local paths with their stat records, from which the root entry is
deleted; `isdir` models the live `os.path.isdir` check, `toDbx` and
`toLocal` the client path converters, `revDict` the revision index and
`lastSync` the stored `("internal", "lastsync")` value. -/
def getLocalChanges (toDbx toLocal : String → String) (isdir : String → Bool)
    (root : String) (snapshot0 : List (String × PathStat))
    (revDict : List (String × String)) (lastSync : Nat) : List FileEvent :=
  reconModifiedOrAdded toDbx isdir root snapshot0 revDict lastSync ++
    reconDeleted toLocal root snapshot0 revDict

/-- The events offline reconciliation should synthesize, stated from the
claim: a Modified event for every snapshot path (root excluded) changed
since lastsync whose case-normalized remote path is a key of the
revision index, a Created event for every such path that is untracked
(directory or file per is_dir), and a Deleted event for every revision
index key whose case-normalized local path is absent from the snapshot
(directory iff the token is the folder sentinel); nothing else. -/
def reconSpecEvent (toDbx toLocal : String → String) (isdir : String → Bool)
    (root : String) (snapshot0 : List (String × PathStat))
    (revDict : List (String × String)) (lastSync : Nat) (e : FileEvent) : Prop :=
  (∃ p st, (p, st) ∈ snapshot0 ∧ p ≠ root ∧ max st.ctime st.mtime > lastSync ∧
    (((∃ tok, (lower (toDbx p), tok) ∈ revDict) ∧
        e = mkEvent EventType.modified p (isdir p)) ∨
      ((¬ ∃ tok, (lower (toDbx p), tok) ∈ revDict) ∧
        e = mkEvent EventType.created p (isdir p)))) ∨
  (∃ r tok, (r, tok) ∈ revDict ∧
    (∀ q ∈ snapshot0, q.1 ≠ root → lower q.1 ≠ lower (toLocal r)) ∧
    e = mkEvent EventType.deleted (toLocal r) (tok == "folder"))

theorem any_key_eq {revDict : List (String × String)} {k : String} :
    revDict.any (fun kv => kv.1 == k) = true ↔ ∃ tok, (k, tok) ∈ revDict := by
  rw [List.any_eq_true]
  constructor
  · rintro ⟨⟨a, b⟩, hmem, hb⟩
    rw [beq_iff_eq] at hb
    subst hb
    exact ⟨b, hmem⟩
  · rintro ⟨tok, htok⟩
    exact ⟨(k, tok), htok, by simp⟩

theorem contains_lower_iff {snapshot0 : List (String × PathStat)} {root v : String} :
    ((snapshot0.filter (fun x => x.1 != root)).map (fun x => lower x.1)).contains v
        = true ↔
      ∃ q ∈ snapshot0, q.1 ≠ root ∧ lower q.1 = v := by
  rw [List.contains_eq_any_beq, List.any_eq_true]
  constructor
  · rintro ⟨a, ha, hb⟩
    rw [beq_iff_eq] at hb
    rw [List.mem_map] at ha
    obtain ⟨q, hq, rfl⟩ := ha
    rw [List.mem_filter, bne_iff_ne] at hq
    exact ⟨q, hq.1, hq.2, hb.symm⟩
  · rintro ⟨q, hq, hroot, hl⟩
    refine ⟨lower q.1, List.mem_map.mpr ⟨q, List.mem_filter.mpr ⟨hq, ?_⟩, rfl⟩, ?_⟩
    · rw [bne_iff_ne]; exact hroot
    · rw [beq_iff_eq]; exact hl.symm

theorem mem_reconModifiedOrAdded {toDbx : String → String} {isdir : String → Bool}
    {root : String} {snapshot0 : List (String × PathStat)}
    {revDict : List (String × String)} {lastSync : Nat} {e : FileEvent} :
    e ∈ reconModifiedOrAdded toDbx isdir root snapshot0 revDict lastSync ↔
      ∃ p st, (p, st) ∈ snapshot0 ∧ p ≠ root ∧ max st.ctime st.mtime > lastSync ∧
        (((∃ tok, (lower (toDbx p), tok) ∈ revDict) ∧
            e = mkEvent EventType.modified p (isdir p)) ∨
          ((¬ ∃ tok, (lower (toDbx p), tok) ∈ revDict) ∧
            e = mkEvent EventType.created p (isdir p))) := by
  rw [reconModifiedOrAdded, List.mem_filterMap]
  constructor
  · rintro ⟨⟨p, st⟩, hx, hf⟩
    rw [List.mem_filter, bne_iff_ne] at hx
    obtain ⟨hmem, hroot⟩ := hx
    by_cases hmax : max st.ctime st.mtime > lastSync
    · rw [if_pos hmax] at hf
      by_cases htr : revDict.any (fun kv => kv.1 == lower (toDbx p)) = true
      · rw [if_pos htr] at hf
        exact ⟨p, st, hmem, hroot, hmax,
          Or.inl ⟨any_key_eq.mp htr, (Option.some.inj hf).symm⟩⟩
      · rw [if_neg htr] at hf
        refine ⟨p, st, hmem, hroot, hmax,
          Or.inr ⟨?_, (Option.some.inj hf).symm⟩⟩
        rw [← any_key_eq]
        exact htr
    · rw [if_neg hmax] at hf
      exact absurd hf (by simp)
  · rintro ⟨p, st, hmem, hroot, hmax, hcase⟩
    refine ⟨(p, st), List.mem_filter.mpr ⟨hmem, by rw [bne_iff_ne]; exact hroot⟩, ?_⟩
    rw [if_pos hmax]
    rcases hcase with ⟨htr, he⟩ | ⟨hntr, he⟩
    · rw [if_pos (any_key_eq.mpr htr), he]
    · rw [if_neg (fun h => hntr (any_key_eq.mp h)), he]

theorem mem_reconDeleted {toLocal : String → String} {root : String}
    {snapshot0 : List (String × PathStat)} {revDict : List (String × String)}
    {e : FileEvent} :
    e ∈ reconDeleted toLocal root snapshot0 revDict ↔
      ∃ r tok, (r, tok) ∈ revDict ∧
        (∀ q ∈ snapshot0, q.1 ≠ root → lower q.1 ≠ lower (toLocal r)) ∧
        e = mkEvent EventType.deleted (toLocal r) (tok == "folder") := by
  rw [reconDeleted, List.mem_filterMap]
  constructor
  · rintro ⟨⟨r, tok⟩, hmem, hf⟩
    cases hcond : ((snapshot0.filter (fun x => x.1 != root)).map
        (fun x => lower x.1)).contains (lower (toLocal r)) with
    | true =>
      rw [hcond] at hf
      exact absurd hf (by simp)
    | false =>
      rw [hcond] at hf
      simp only [Bool.not_false, if_true, Option.some.injEq] at hf
      refine ⟨r, tok, hmem, ?_, hf.symm⟩
      intro q hq hroot hl
      have : ((snapshot0.filter (fun x => x.1 != root)).map
          (fun x => lower x.1)).contains (lower (toLocal r)) = true :=
        contains_lower_iff.mpr ⟨q, hq, hroot, hl⟩
      rw [hcond] at this
      exact Bool.false_ne_true this
  · rintro ⟨r, tok, hmem, habs, he⟩
    refine ⟨(r, tok), hmem, ?_⟩
    have hcond : ((snapshot0.filter (fun x => x.1 != root)).map
        (fun x => lower x.1)).contains (lower (toLocal r)) = false := by
      rw [← Bool.not_eq_true, contains_lower_iff]
      rintro ⟨q, hq, hroot, hl⟩
      exact habs q hq hroot hl
    rw [hcond]
    simp only [Bool.not_false, if_true, Option.some.injEq]
    exact he.symm

/-- C6: the events synthesized by offline reconciliation are exactly the
ones the specification describes: Modified for changed tracked snapshot
paths, Created for changed untracked snapshot paths, Deleted for tracked
remote paths missing locally, and nothing else. -/
theorem c6_reconciliation_events (toDbx toLocal : String → String)
    (isdir : String → Bool) (root : String)
    (snapshot0 : List (String × PathStat)) (revDict : List (String × String))
    (lastSync : Nat) (e : FileEvent) :
    e ∈ getLocalChanges toDbx toLocal isdir root snapshot0 revDict lastSync ↔
      reconSpecEvent toDbx toLocal isdir root snapshot0 revDict lastSync e := by
  rw [getLocalChanges, List.mem_append, mem_reconModifiedOrAdded, mem_reconDeleted]
  exact Iff.rfl

/-- C7: reconciliation never synthesizes both a Created and a Deleted
event for the same case-normalized remote path, assuming the revision
index keys are case-normalized and the path converters round-trip up to
case. -/
theorem c7_no_created_and_deleted_same_remote
    (toDbx toLocal : String → String) (isdir : String → Bool) (root : String)
    (snapshot0 : List (String × PathStat)) (revDict : List (String × String))
    (lastSync : Nat)
    (hnorm : revDict.all (fun kv => kv.1 == lower kv.1) = true)
    (hround : ∀ r, lower (toDbx (toLocal r)) = lower r)
    (e1 e2 : FileEvent)
    (h1 : e1 ∈ getLocalChanges toDbx toLocal isdir root snapshot0 revDict lastSync)
    (h2 : e2 ∈ getLocalChanges toDbx toLocal isdir root snapshot0 revDict lastSync)
    (ht1 : e1.eventType = EventType.created)
    (ht2 : e2.eventType = EventType.deleted) :
    lower (toDbx e1.srcPath) ≠ lower (toDbx e2.srcPath) := by
  rw [getLocalChanges, List.mem_append] at h1 h2
  rcases h1 with h1 | h1
  · rw [mem_reconModifiedOrAdded] at h1
    obtain ⟨p, st, hmem, hroot, hmax, hcase⟩ := h1
    rcases hcase with ⟨-, he⟩ | ⟨huntracked, he⟩
    · rw [he] at ht1
      simp [mkEvent] at ht1
    · rcases h2 with h2 | h2
      · rw [mem_reconModifiedOrAdded] at h2
        obtain ⟨q, st2, -, -, -, hcase2⟩ := h2
        rcases hcase2 with ⟨-, he2⟩ | ⟨-, he2⟩ <;> rw [he2] at ht2 <;>
          simp [mkEvent] at ht2
      · rw [mem_reconDeleted] at h2
        obtain ⟨r, tok, hmemr, -, he2⟩ := h2
        intro heq
        rw [he, he2] at heq
        have hsrc1 : (mkEvent EventType.created p (isdir p)).srcPath = p := rfl
        have hsrc2 : (mkEvent EventType.deleted (toLocal r)
          (tok == "folder")).srcPath = toLocal r := rfl
        rw [hsrc1, hsrc2, hround r] at heq
        have hr : r = lower r := by
          have hall := List.all_eq_true.mp hnorm (r, tok) hmemr
          rw [beq_iff_eq] at hall
          exact hall
        exact huntracked ⟨tok, by rw [heq, ← hr]; exact hmemr⟩
  · rw [mem_reconDeleted] at h1
    obtain ⟨r, tok, -, -, he⟩ := h1
    rw [he] at ht1
    simp [mkEvent] at ht1

/-- C7 witness: a concrete snapshot with one fresh untracked file and one
tracked remote path missing locally; identity path converters. -/
theorem c7_no_created_and_deleted_same_remote_witness :
    ((([("/y", "r")] : List (String × String)).all
        (fun kv => kv.1 == lower kv.1) = true ∧
      mkEvent EventType.created "/x" false ∈
        getLocalChanges (fun p => p) (fun p => p) (fun _ => false) "/"
          [("/x", ⟨5, 5⟩)] [("/y", "r")] 0 ∧
      mkEvent EventType.deleted "/y" false ∈
        getLocalChanges (fun p => p) (fun p => p) (fun _ => false) "/"
          [("/x", ⟨5, 5⟩)] [("/y", "r")] 0) ∧
    lower "/x" ≠ lower "/y") :=
  ⟨⟨by decide, by decide, by decide⟩,
    c7_no_created_and_deleted_same_remote (fun p => p) (fun p => p)
      (fun _ => false) "/" [("/x", ⟨5, 5⟩)] [("/y", "r")] 0
      (by decide) (fun _ => rfl)
      (mkEvent EventType.created "/x" false) (mkEvent EventType.deleted "/y" false)
      (by decide) (by decide) rfl rfl⟩

end Birdbox
